import Mathlib

/-!
Verification development for the conversational tool-orchestration layer of
the agentic-assistant repository (Go).  The Go sources are shallowly embedded
as pure Lean functions:

* `processMessage` embeds `processMessage` from `chatbot_agent/main.go`
  (lines 115-223).  The model, the tool dispatcher and the credential source
  are parameters: a model response is a list of `RPart`s (the parts of
  `resp.Candidates[0].Content.Parts`, per the language-model contract a
  response is made of text parts and function-call parts), the dispatcher is a
  function from tool name and arguments to an `Except`, and its observable
  behaviour for one turn is recorded in a `TurnResult` (messages published via
  `SendResponse`, invocations passed to `ExecuteToolCall`, batches of
  `FunctionResponse`s resubmitted via `SendMessage`).
* `ExecuteToolCall` embeds `ExecuteToolCall` from
  `chatbot_agent/mcp_clients.go` (lines 47-173), parametric in a `Backend`
  holding the five gRPC operations.
* `GetOrCreateUserSession` embeds the session map of
  `chatbot_agent/session_manager.go`; the mutex that guards it is modelled by
  an interleaving semantics over atomic actions (`Act`, `isMerge`, `mutexOK`).
* `SendResponse`, `PublishIncomingMessage` and `GetResponseFromNATS` embed
  `chatbot_agent/nats_queue.go`; the bus is modelled as delivering envelopes
  structurally (JSON marshalling of `OutgoingWhatsAppMessage` followed by
  unmarshalling preserves the struct).
-/

/-- Dynamically-typed tool argument values supplied by the model: string,
integer, or structured value (Go `interface\x7b\x7d`; JSON numbers arrive for
integer-typed parameters and are narrowed by the dispatcher). -/
inductive GVal where
  | str (s : String)
  | num (n : Int)
  | structured
deriving DecidableEq, Repr

/-- One part of a model response: plain text (`genai.Text`) or a tool
invocation (`genai.FunctionCall` with name and argument mapping). -/
inductive RPart where
  | text (s : String)
  | functionCall (name : String) (args : List (String × GVal))
deriving DecidableEq, Repr

deriving instance DecidableEq for Except

/-- A tool result sent back to the model (`genai.FunctionResponse`): the
originating invocation's name together with either an error message
(the `error` key, main.go lines 177-182) or a success payload
(the `result` key, lines 189-194). -/
structure FunctionResponse where
  name : String
  response : Except String String
deriving DecidableEq, Repr

/-- Observable behaviour of one `processMessage` turn: the texts published
via `SendResponse` in order, the invocations handed to `ExecuteToolCall` in
order, and the batches of tool results resubmitted to the model via
`SendMessage`. -/
structure TurnResult where
  published : List String
  executed : List (String × List (String × GVal))
  resubmissions : List (List FunctionResponse)
deriving DecidableEq, Repr

/-- Credential set carried by a session (`pb.OAuthTokens`). -/
structure Tokens where
  accessToken : String
  refreshToken : String
  tokenType : String
  expiryUnix : Int
deriving DecidableEq, Repr

/-- Explanatory message published when the credential source fails
(main.go line 129). -/
def authErrorMsg (e : String) : String :=
  "Lo siento, necesito que autorices tu cuenta de Google. Puedes hacerlo siguiendo las instrucciones del servidor MCP. (Error: " ++ e ++ ")"

/-- Apology published when the first model call fails (main.go line 145). -/
def modelErrorMsg : String :=
  "Lo siento, hubo un error al procesar tu solicitud con el modelo de IA. Intenta de nuevo."

/-- Apology published when resubmitting tool outputs to the model fails
(main.go line 209). -/
def toolCommErrorMsg : String :=
  "Lo siento, hubo un error al comunicar el resultado de las acciones."

/-- Fixed fallback published when no text part was found (main.go line 222). -/
def fallbackMsg : String :=
  "Lo siento, no pude generar una respuesta clara."

/-- Outcome of the part loop of main.go lines 153-202: either the early
return on a text part seen while `hasToolCalls` is still false (line 199,
carrying the invocations executed so far), or loop completion with the
collected `toolResponses`, the executed invocations, and the final
`hasToolCalls` flag. -/
inductive LoopOut where
  | earlyText (t : String) (executed : List (String × List (String × GVal)))
  | done (responses : List FunctionResponse)
      (executed : List (String × List (String × GVal))) (hasToolCalls : Bool)
deriving DecidableEq, Repr

/-- The part loop of main.go lines 153-202.  A `functionCall` part sets
`hasToolCalls`, is executed via the dispatcher `exec`, and its outcome is
appended to `toolResponses` (an error outcome does not stop the loop: the
code logs and `continue`s, line 185).  A `text` part returns immediately
when `hasToolCalls` is still false (lines 195-200) and is skipped
otherwise. -/
def partsLoop (exec : String → List (String × GVal) → Except String String) :
    List RPart → Bool → List FunctionResponse →
    List (String × List (String × GVal)) → LoopOut
  | [], hasTool, acc, ex => .done acc ex hasTool
  | .functionCall n a :: rest, _, acc, ex =>
      partsLoop exec rest true (acc ++ [⟨n, exec n a⟩]) (ex ++ [(n, a)])
  | .text t :: rest, hasTool, acc, ex =>
      if hasTool then partsLoop exec rest hasTool acc ex
      else .earlyText t ex

/-- First text part of a response, as scanned by main.go lines 214-219. -/
def firstText : List RPart → Option String
  | [] => none
  | .text t :: _ => some t
  | .functionCall _ _ :: rest => firstText rest

/-- The tool invocations contained in a model response, in order. -/
def callsOf : List RPart → List (String × List (String × GVal))
  | [] => []
  | .functionCall n a :: rest => (n, a) :: callsOf rest
  | .text _ :: rest => callsOf rest

/-- The batch of tool results the loop collects for a response when no early
text return happens, in order. -/
def toolBatchFrom (exec : String → List (String × GVal) → Except String String) :
    List RPart → List FunctionResponse
  | [] => []
  | .functionCall n a :: rest => ⟨n, exec n a⟩ :: toolBatchFrom exec rest
  | .text _ :: rest => toolBatchFrom exec rest

/-- Steps 3-7 of the turn (main.go lines 142-223), after the credential
check: submit the user text (outcome `resp1`), classify the response parts,
execute invocations, resubmit the batch when there were tool calls (outcome
`resp2`), extract the first text of the follow-up, and fall back to the
fixed message when no text was found. -/
def runTurn (resp1 : Except Unit (List RPart))
    (exec : String → List (String × GVal) → Except String String)
    (resp2 : Except Unit (List RPart)) : TurnResult :=
  match resp1 with
  | .error _ => ⟨[modelErrorMsg], [], []⟩
  | .ok parts =>
    match partsLoop exec parts false [] [] with
    | .earlyText t ex => ⟨[t], ex, []⟩
    | .done acc ex hasTool =>
      if hasTool then
        match resp2 with
        | .error _ => ⟨[toolCommErrorMsg], ex, [acc]⟩
        | .ok parts2 =>
          match firstText parts2 with
          | some t => ⟨[t], ex, [acc]⟩
          | none => ⟨[fallbackMsg], ex, [acc]⟩
      else ⟨[fallbackMsg], ex, []⟩

/-- Embedding of `processMessage` (main.go lines 115-223).  `tokens` is the
session's `OAuthTokens` field, `credSrc` the outcome of
`LoadAndPrepareTokens`, `resp1` the outcome of the first `SendMessage`,
`exec` the dispatcher, `resp2` the outcome of resubmitting the tool batch.
When the session has no tokens and the credential source fails, the
explanatory message is published and the turn terminates before any model
or dispatcher call (lines 124-131). -/
def processMessage (tokens : Option Tokens) (credSrc : Except String Tokens)
    (resp1 : Except Unit (List RPart))
    (exec : String → List (String × GVal) → Except String String)
    (resp2 : Except Unit (List RPart)) : TurnResult :=
  match tokens with
  | some _ => runTurn resp1 exec resp2
  | none =>
    match credSrc with
    | .error e => ⟨[authErrorMsg e], [], []⟩
    | .ok _ => runTurn resp1 exec resp2

def tk0 : Tokens := ⟨"at", "rt", "Bearer", 0⟩

def execOk : String → List (String × GVal) → Except String String :=
  fun _ _ => Except.ok "done"

/-!
Tool Dispatcher: embedding of `ExecuteToolCall` from
`chatbot_agent/mcp_clients.go` lines 47-173.  The five gRPC operations are a
`Backend` parameter; an operation's outcome is an `ExtResult`: transport
failure of the RPC itself, an application-level `Status == "ERROR"` response,
or a success payload (the Go code then projects response fields into a result
map; the payload is abstracted to one opaque value).  Argument extraction
mirrors the Go type assertions: `args[k].(string)` succeeds only when the key
is present and holds a string, `args[k].(float64)` only when it holds a
number.
-/

/-- Outcome of one external gRPC operation, as observed by the dispatcher. -/
inductive ExtResult where
  | rpcFailed (e : String)
  | appError (msg : String)
  | ok (payload : String)
deriving DecidableEq, Repr

/-- Request of `CalendarService.ListEvents` (mcp_clients.go lines 63-67). -/
structure ListEventsRequest where
  tokens : Tokens
  calendarId : String
  maxResults : Int
deriving DecidableEq, Repr

/-- Request of `CalendarService.CreateEvent` (mcp_clients.go lines 90-98). -/
structure CreateEventRequest where
  tokens : Tokens
  calendarId : String
  summary : String
  description : String
  startTime : String
  endTime : String
  timeZone : String
deriving DecidableEq, Repr

/-- Request of `GmailService.SendEmail` (mcp_clients.go lines 113-118). -/
structure SendEmailRequest where
  tokens : Tokens
  toAddr : String
  subject : String
  body : String
deriving DecidableEq, Repr

/-- Request of `ContactsService.ListConnections` (mcp_clients.go 133-136). -/
structure ListConnectionsRequest where
  tokens : Tokens
  pageSize : Int
deriving DecidableEq, Repr

/-- Request of `ContactsService.CreateContact` (mcp_clients.go 155-160). -/
structure CreateContactRequest where
  tokens : Tokens
  displayName : String
  email : String
  phoneNumber : String
deriving DecidableEq, Repr

/-- The five external operations the dispatcher can call. -/
structure Backend where
  listEvents : ListEventsRequest → ExtResult
  createEvent : CreateEventRequest → ExtResult
  sendEmail : SendEmailRequest → ExtResult
  listConnections : ListConnectionsRequest → ExtResult
  createContact : CreateContactRequest → ExtResult

/-- First binding of a key in the argument mapping (Go map lookup). -/
def lookupArg : List (String × GVal) → String → Option GVal
  | [], _ => none
  | (k, v) :: rest, key => if k = key then some v else lookupArg rest key

/-- The Go type assertion `args[k].(string)`: some only when the key is
present and bound to a string. -/
def argStr (args : List (String × GVal)) (k : String) : Option String :=
  match lookupArg args k with
  | some (GVal.str s) => some s
  | _ => none

/-- The Go type assertion `args[k].(float64)` for integer-typed parameters:
some only when the key is present and bound to a number. -/
def argInt (args : List (String × GVal)) (k : String) : Option Int :=
  match lookupArg args k with
  | some (GVal.num n) => some n
  | _ => none

/-- Argument handling of the `list_calendar_events` case (mcp_clients.go
lines 54-67): `calendar_id` defaults to "primary", `max_results` to 10. -/
def buildListEventsRequest (tokens : Tokens)
    (args : List (String × GVal)) : ListEventsRequest :=
  ⟨tokens, (argStr args "calendar_id").getD "primary",
    (argInt args "max_results").getD 10⟩

/-- Argument handling of the `create_calendar_event` case (lines 81-98):
every field is extracted with `x, _ := args[k].(string)`, so an absent or
mistyped argument is forwarded as the zero value "". -/
def buildCreateEventRequest (tokens : Tokens)
    (args : List (String × GVal)) : CreateEventRequest :=
  ⟨tokens, (argStr args "calendar_id").getD "", (argStr args "summary").getD "",
    (argStr args "description").getD "", (argStr args "start_time").getD "",
    (argStr args "end_time").getD "", (argStr args "time_zone").getD ""⟩

/-- Argument handling of the `send_email` case (lines 108-118). -/
def buildSendEmailRequest (tokens : Tokens)
    (args : List (String × GVal)) : SendEmailRequest :=
  ⟨tokens, (argStr args "to").getD "", (argStr args "subject").getD "",
    (argStr args "body").getD ""⟩

/-- Argument handling of the `list_contacts` case (lines 128-136):
`page_size` defaults to 10. -/
def buildListConnectionsRequest (tokens : Tokens)
    (args : List (String × GVal)) : ListConnectionsRequest :=
  ⟨tokens, (argInt args "page_size").getD 10⟩

/-- Argument handling of the `create_contact` case (lines 150-160). -/
def buildCreateContactRequest (tokens : Tokens)
    (args : List (String × GVal)) : CreateContactRequest :=
  ⟨tokens, (argStr args "display_name").getD "", (argStr args "email").getD "",
    (argStr args "phone_number").getD ""⟩

/-- Mapping of an external operation's outcome to the dispatcher's return
value: a transport failure and an application-level error status are both
surfaced as an error string prefixed with the tool's name (mcp_clients.go,
e.g. lines 69-74). -/
def mapOutcome (toolName : String) (r : ExtResult) : Except String String :=
  match r with
  | .rpcFailed e => .error (toolName ++ " RPC failed: " ++ e)
  | .appError m => .error (toolName ++ " MCP error: " ++ m)
  | .ok p => .ok p

/-- Embedding of `ExecuteToolCall` (mcp_clients.go lines 47-173): dispatch
on the tool name over the five statically known handlers; the default branch
returns the error "unknown tool: name" without touching the backend.  The
Go switch is rendered as a chain of string comparisons. -/
def ExecuteToolCall (b : Backend) (tokens : Tokens) (toolName : String)
    (args : List (String × GVal)) : Except String String :=
  if toolName = "list_calendar_events" then
    mapOutcome toolName (b.listEvents (buildListEventsRequest tokens args))
  else if toolName = "create_calendar_event" then
    mapOutcome toolName (b.createEvent (buildCreateEventRequest tokens args))
  else if toolName = "send_email" then
    mapOutcome toolName (b.sendEmail (buildSendEmailRequest tokens args))
  else if toolName = "list_contacts" then
    mapOutcome toolName (b.listConnections (buildListConnectionsRequest tokens args))
  else if toolName = "create_contact" then
    mapOutcome toolName (b.createContact (buildCreateContactRequest tokens args))
  else
    .error ("unknown tool: " ++ toolName)

/-- A backend whose five operations all succeed with an empty payload. -/
def trivialBackend : Backend :=
  ⟨fun _ => .ok "", fun _ => .ok "", fun _ => .ok "", fun _ => .ok "",
    fun _ => .ok ""⟩

/-!
Session Store: embedding of `chatbot_agent/session_manager.go`.  A session
instance is identified by a number; the store is an association list from
user identifier to session id plus a fresh-id counter (`&UserSession\x7b\x7d`
allocation).  `GetOrCreateUserSession` holds `sessionsMutex` for its whole
body (lines 17-18), so the lookup-or-insert below is one atomic step; the
mutual-exclusion of the mutex itself is modelled separately by the `Act`
interleaving semantics.
-/

/-- The session map together with an allocator for fresh session
instances. -/
structure Store where
  entries : List (String × Nat)
  nextId : Nat
deriving DecidableEq, Repr

/-- Go map lookup on the session map. -/
def lookupSession : List (String × Nat) → String → Option Nat
  | [], _ => none
  | (k, v) :: rest, u => if k = u then some v else lookupSession rest u

/-- Embedding of `GetOrCreateUserSession` (session_manager.go lines 16-26):
return the existing session and `ok = true`, or allocate a fresh empty
session, install it, and return it with `ok = false`. -/
def GetOrCreateUserSession (st : Store) (u : String) : Nat × Bool × Store :=
  match lookupSession st.entries u with
  | some sid => (sid, true, st)
  | none => (st.nextId, false, ⟨st.entries ++ [(u, st.nextId)], st.nextId + 1⟩)

/-- Serialization of `n` concurrent `GetOrCreateUserSession` calls for one
user: the mutex covering the whole body makes any concurrent execution
equivalent to some sequential order, and for a single user all orders agree,
so the `n` calls are run in sequence. -/
def runCalls (u : String) : Nat → Store → List Nat × Store
  | 0, st => ([], st)
  | n + 1, st =>
      let r := GetOrCreateUserSession st u
      let rest := runCalls u n r.2.2
      (r.1 :: rest.1, rest.2)

/-- Number of entries the store holds for a user. -/
def countUser (st : Store) (u : String) : Nat :=
  st.entries.countP (fun p => decide (p.1 = u))

/-!
Concurrency model.  A turn or a store operation is a list of atomic actions:
acquiring and releasing `sessionsMutex`, the map lookup-or-insert done while
holding it, the two halves of the non-atomic read-modify-write append to the
session's dialogue (`geminiChatSession.History = append(...)`, main.go lines
137-140, executed outside any lock), and other steps (model and tool calls).
A schedule interleaves two executions A and B; it is well formed when it is a
merge of the two action lists (`isMerge`) and respects the mutex
(`mutexOK`).
-/

/-- Atomic actions of the concurrency model. -/
inductive Act where
  | lock
  | unlock
  | storeOp
  | mutStart
  | mutEnd
  | step
deriving DecidableEq, Repr

/-- Actions of one `processMessage` execution for a user whose session
exists and carries tokens: `GetOrCreateUserSession` (lock, lookup, unlock),
then the unguarded dialogue append (main.go lines 137-140), then the model
submission and the rest of the turn. -/
def processTrace : List Act :=
  [.lock, .storeOp, .unlock, .mutStart, .mutEnd, .step]

/-- Actions of one `GetOrCreateUserSession` call alone (session_manager.go
lines 16-26). -/
def getOrCreateTrace : List Act := [.lock, .storeOp, .unlock]

/-- A schedule entry is (thread, action); `false` is thread A, `true` is
thread B. -/
def isMerge : List (Bool × Act) → List Act → List Act → Bool
  | [], t1, t2 => t1.isEmpty && t2.isEmpty
  | (false, a) :: rest, t1, t2 =>
      match t1 with
      | [] => false
      | a1 :: r1 => decide (a = a1) && isMerge rest r1 t2
  | (true, a) :: rest, t1, t2 =>
      match t2 with
      | [] => false
      | a2 :: r2 => decide (a = a2) && isMerge rest t1 r2

/-- Mutex semantics: `lock` requires the mutex to be free and acquires it
for the locking thread; `unlock` requires the unlocking thread to hold it. -/
def mutexOKAux : Option Bool → List (Bool × Act) → Bool
  | _, [] => true
  | holder, (i, Act.lock) :: rest => holder.isNone && mutexOKAux (some i) rest
  | holder, (i, Act.unlock) :: rest =>
      decide (holder = some i) && mutexOKAux none rest
  | holder, (_, _) :: rest => mutexOKAux holder rest

/-- A schedule respects the mutex when it starts with the mutex free. -/
def mutexOK (s : List (Bool × Act)) : Bool := mutexOKAux none s

/-- Detects overlapping dialogue mutation: one thread enters its
mutStart-mutEnd region while the other thread is inside its own. -/
def overlapMutAux : Bool → Bool → List (Bool × Act) → Bool
  | _, _, [] => false
  | _, inB, (false, Act.mutStart) :: rest => inB || overlapMutAux true inB rest
  | inA, _, (true, Act.mutStart) :: rest => inA || overlapMutAux inA true rest
  | _, inB, (false, Act.mutEnd) :: rest => overlapMutAux false inB rest
  | inA, _, (true, Act.mutEnd) :: rest => overlapMutAux inA false rest
  | inA, inB, (_, _) :: rest => overlapMutAux inA inB rest

/-- Whether a schedule lets the two threads mutate the dialogue at once. -/
def overlapMut (s : List (Bool × Act)) : Bool := overlapMutAux false false s

/-- All merges of two action lists, with explicit fuel so the recursion is
structural. -/
def mergesFuel : Nat → List Act → List Act → List (List (Bool × Act))
  | 0, t1, t2 => if t1.isEmpty && t2.isEmpty then [[]] else []
  | _ + 1, [], [] => [[]]
  | f + 1, a :: t1, [] =>
      (mergesFuel f t1 []).map (fun s => (false, a) :: s)
  | f + 1, [], b :: t2 =>
      (mergesFuel f [] t2).map (fun s => (true, b) :: s)
  | f + 1, a :: t1, b :: t2 =>
      (mergesFuel f t1 (b :: t2)).map (fun s => (false, a) :: s) ++
      (mergesFuel f (a :: t1) t2).map (fun s => (true, b) :: s)

/-- All merges of two action lists. -/
def allMerges (t1 t2 : List Act) : List (List (Bool × Act)) :=
  mergesFuel (t1.length + t2.length) t1 t2

/-- Thread A running a whole action list, then thread B. -/
def seqAB (t : List Act) : List (Bool × Act) :=
  t.map (fun a => (false, a)) ++ t.map (fun a => (true, a))

/-- Thread B running a whole action list, then thread A. -/
def seqBA (t : List Act) : List (Bool × Act) :=
  t.map (fun a => (true, a)) ++ t.map (fun a => (false, a))

/-- A schedule of two `processMessage` executions for the same user in which
both turns are inside the dialogue mutation at once, while every mutex rule
is respected: `main.go` line 70 starts each execution with
`go processMessage(...)` and no per-user lock exists, so nothing rules this
schedule out. -/
def unserializedSchedule : List (Bool × Act) :=
  [(false, .lock), (false, .storeOp), (false, .unlock),
   (true, .lock), (true, .storeOp), (true, .unlock),
   (false, .mutStart), (true, .mutStart), (false, .mutEnd), (true, .mutEnd),
   (false, .step), (true, .step)]

/-!
Bus Correlator: embedding of `chatbot_agent/nats_queue.go`.  The bus carries
`OutgoingWhatsAppMessage` envelopes structurally (JSON marshalling in
`SendResponse` followed by unmarshalling in the `GetResponseFromNATS`
handler reproduces the struct).  `GetResponseFromNATS`'s bounded wait is
modelled by giving it the list of publishes that reach the bus before the
timeout elapses, in delivery order, each tagged with its subject.
-/

/-- Subject prefixing of response messages (nats_queue.go line 52). -/
def respSubjectBase : String := "response.messages."

/-- The outbound envelope (`OutgoingWhatsAppMessage` in types.go). -/
structure OutMsg where
  messagingProduct : String
  toUser : String
  msgType : String
  textBody : String
deriving DecidableEq, Repr

/-- The envelope `SendResponse` builds (nats_queue.go lines 80-87). -/
def mkOutgoing (userID message : String) : OutMsg :=
  ⟨"whatsapp", userID, "text", message⟩

/-- The publish `SendResponse` performs (nats_queue.go lines 88-94): the
envelope goes out on the user's response subject. -/
def SendResponsePublish (userID message : String) : String × OutMsg :=
  (respSubjectBase ++ userID, mkOutgoing userID message)

/-- First envelope delivered on a subject. -/
def firstOnSubject (subject : String) : List (String × OutMsg) → Option OutMsg
  | [] => none
  | (s, m) :: rest => if s = subject then some m else firstOnSubject subject rest

/-- Outcome of `GetResponseFromNATS`: the response text, or the timeout
error; `subscriptionActive` records whether the transient subscription to
the user's response subject is still installed when the call returns. -/
structure AwaitResult where
  outcome : Except String String
  subscriptionActive : Bool
deriving DecidableEq, Repr

/-- Embedding of `GetResponseFromNATS` (nats_queue.go lines 98-124).
`arrivals` are the publishes delivered before the timeout.  If one of them
is on the user's response subject, the handler unmarshals it, sends
`Text.Body` over the channel and unsubscribes (line 111); the deferred
`sub.Unsubscribe()` (line 116) also runs, so the subscription is gone.  If
none is, the `time.After` branch returns the "response timeout" error and
the deferred unsubscribe tears the subscription down. -/
def GetResponseFromNATS (arrivals : List (String × OutMsg))
    (userID : String) : AwaitResult :=
  match firstOnSubject (respSubjectBase ++ userID) arrivals with
  | some m => ⟨.ok m.textBody, false⟩
  | none => ⟨.error "response timeout", false⟩

/-- Embedding of `PublishIncomingMessage` (nats_queue.go lines 56-66):
the payload struct always marshals; a failing `nc.Publish` is wrapped and
returned to the caller, success returns nil. -/
def PublishIncomingMessage (pubOutcome : Except String Unit) :
    Except String Unit :=
  match pubOutcome with
  | .error e => .error ("error publishing incoming webhook to NATS: " ++ e)
  | .ok _ => .ok ()

/-- Embedding of `SendResponse` (nats_queue.go lines 79-95): the function
returns nothing to its caller; a failing `nc.Publish` is only logged
(line 91), a successful one logs the published text (line 93).  The first
component is the value the caller receives, the second the log lines. -/
def SendResponse (pubOutcome : Except String Unit) (userID message : String) :
    Unit × List String :=
  match pubOutcome with
  | .error e =>
      ((), ["Error publishing response to NATS subject " ++
            respSubjectBase ++ userID ++ ": " ++ e])
  | .ok _ =>
      ((), ["Published response to NATS for user " ++ userID ++ ": " ++ message])

/-- Whether a response part is a tool invocation. -/
def isCall : RPart → Bool
  | .functionCall _ _ => true
  | .text _ => false

/-- A model response in which a text part precedes a tool invocation
(witnessing main.go lines 195-200: the text is published and the function
returns before the invocation is reached). -/
def textFirstParts : List RPart :=
  [RPart.text "Hola", RPart.functionCall "create_contact"
    [("display_name", GVal.str "Joe Doe")]]

/-!
Helper lemmas about the part loop and the turn driver.
-/

lemma partsLoop_flagTrue (exec : String → List (String × GVal) → Except String String) :
    ∀ (ps : List RPart) (acc : List FunctionResponse)
      (ex : List (String × List (String × GVal))),
    partsLoop exec ps true acc ex =
      .done (acc ++ toolBatchFrom exec ps) (ex ++ callsOf ps) true := by
  intro ps
  induction ps with
  | nil => intro acc ex; simp [partsLoop, toolBatchFrom, callsOf]
  | cons p rest ih =>
    intro acc ex
    cases p with
    | text t => simpa [partsLoop, toolBatchFrom, callsOf] using ih acc ex
    | functionCall n a =>
      simp [partsLoop, toolBatchFrom, callsOf, ih]

lemma toolBatchFrom_map_name (exec : String → List (String × GVal) → Except String String) :
    ∀ ps : List RPart,
    (toolBatchFrom exec ps).map FunctionResponse.name = (callsOf ps).map Prod.fst := by
  intro ps
  induction ps with
  | nil => simp [toolBatchFrom, callsOf]
  | cons p rest ih =>
    cases p with
    | text t => simpa [toolBatchFrom, callsOf] using ih
    | functionCall n a => simp [toolBatchFrom, callsOf, ih]

lemma toolBatchFrom_length (exec : String → List (String × GVal) → Except String String) :
    ∀ ps : List RPart, (toolBatchFrom exec ps).length = (callsOf ps).length := by
  intro ps
  induction ps with
  | nil => simp [toolBatchFrom, callsOf]
  | cons p rest ih =>
    cases p with
    | text t => simpa [toolBatchFrom, callsOf] using ih
    | functionCall n a => simp [toolBatchFrom, callsOf, ih]

lemma partsLoop_noText (exec : String → List (String × GVal) → Except String String) :
    ∀ (ps : List RPart) (flag : Bool) (acc : List FunctionResponse)
      (ex : List (String × List (String × GVal))), firstText ps = none →
    ∃ acc2 ex2 ht, partsLoop exec ps flag acc ex = .done acc2 ex2 ht := by
  intro ps
  induction ps with
  | nil => intro flag acc ex _; exact ⟨acc, ex, flag, rfl⟩
  | cons p rest ih =>
    intro flag acc ex h
    cases p with
    | text t => simp [firstText] at h
    | functionCall n a =>
      have h2 : firstText rest = none := by simpa [firstText] using h
      exact ih true _ _ h2

lemma runTurn_pub_len (r1 : Except Unit (List RPart))
    (exec : String → List (String × GVal) → Except String String)
    (r2 : Except Unit (List RPart)) :
    (runTurn r1 exec r2).published.length = 1 := by
  unfold runTurn
  cases r1 with
  | error e => simp
  | ok parts =>
    cases h : partsLoop exec parts false [] [] with
    | earlyText t ex => simp [h]
    | done acc ex ht =>
      cases ht with
      | false => simp [h]
      | true =>
        cases r2 with
        | error e => simp [h]
        | ok parts2 => cases hft : firstText parts2 <;> simp [h, hft]

lemma runTurn_resub_le_one (r1 : Except Unit (List RPart))
    (exec : String → List (String × GVal) → Except String String)
    (r2 : Except Unit (List RPart)) :
    (runTurn r1 exec r2).resubmissions.length ≤ 1 := by
  unfold runTurn
  cases r1 with
  | error e => simp
  | ok parts =>
    cases h : partsLoop exec parts false [] [] with
    | earlyText t ex => simp [h]
    | done acc ex ht =>
      cases ht with
      | false => simp [h]
      | true =>
        cases r2 with
        | error e => simp [h]
        | ok parts2 => cases hft : firstText parts2 <;> simp [h, hft]

lemma runTurn_executed_of_done (q1 : List RPart)
    (exec : String → List (String × GVal) → Except String String)
    (r2 : Except Unit (List RPart)) (acc : List FunctionResponse)
    (ex : List (String × List (String × GVal))) (ht : Bool)
    (h : partsLoop exec q1 false [] [] = .done acc ex ht) :
    (runTurn (Except.ok q1) exec r2).executed = ex := by
  unfold runTurn
  cases ht with
  | false => simp [h]
  | true =>
    cases r2 with
    | error e => simp [h]
    | ok parts2 => cases hft : firstText parts2 <;> simp [h, hft]

lemma processMessage_some (tks : Tokens) (cs : Except String Tokens)
    (r1 : Except Unit (List RPart))
    (exec : String → List (String × GVal) → Except String String)
    (r2 : Except Unit (List RPart)) :
    processMessage (some tks) cs r1 exec r2 = runTurn r1 exec r2 := rfl

lemma processMessage_pub_len (tokens : Option Tokens)
    (cs : Except String Tokens) (r1 : Except Unit (List RPart))
    (exec : String → List (String × GVal) → Except String String)
    (r2 : Except Unit (List RPart)) :
    (processMessage tokens cs r1 exec r2).published.length = 1 := by
  cases tokens with
  | some tks => simpa [processMessage_some] using runTurn_pub_len r1 exec r2
  | none =>
    cases cs with
    | error e => simp [processMessage]
    | ok tks =>
      show (runTurn r1 exec r2).published.length = 1
      exact runTurn_pub_len r1 exec r2

/-!
Helper lemmas about the session store.
-/

lemma lookupSession_append (es : List (String × Nat)) (u : String) (v : Nat)
    (h : lookupSession es u = none) :
    lookupSession (es ++ [(u, v)]) u = some v := by
  induction es with
  | nil => simp [lookupSession]
  | cons p rest ih =>
    obtain ⟨k, w⟩ := p
    by_cases hk : k = u
    · simp [lookupSession, hk] at h
    · simp only [lookupSession, List.cons_append, if_neg hk] at h ⊢
      exact ih h

lemma lookupSession_none_count (es : List (String × Nat)) (u : String)
    (h : lookupSession es u = none) :
    List.countP (fun p => decide (p.1 = u)) es = 0 := by
  induction es with
  | nil => simp
  | cons p rest ih =>
    obtain ⟨k, w⟩ := p
    by_cases hk : k = u
    · simp [lookupSession, hk] at h
    · simp only [lookupSession, if_neg hk] at h
      simp [List.countP_cons, hk, ih h]

lemma lookupSession_some_count (es : List (String × Nat)) (u : String) (sid : Nat)
    (h : lookupSession es u = some sid) :
    0 < List.countP (fun p => decide (p.1 = u)) es := by
  induction es with
  | nil => simp [lookupSession] at h
  | cons p rest ih =>
    obtain ⟨k, w⟩ := p
    by_cases hk : k = u
    · simp [List.countP_cons, hk]
    · simp only [lookupSession, if_neg hk] at h
      simpa [List.countP_cons, hk] using ih h

lemma runCalls_stable (u : String) (sid : Nat) :
    ∀ (n : Nat) (st : Store), lookupSession st.entries u = some sid →
    runCalls u n st = (List.replicate n sid, st) := by
  intro n
  induction n with
  | zero => intro st h; simp [runCalls]
  | succ m ih =>
    intro st h
    have hg : GetOrCreateUserSession st u = (sid, true, st) := by
      unfold GetOrCreateUserSession
      rw [h]
    simp [runCalls, hg, ih st h, List.replicate]

/-!
Claim theorems.
-/

/-- C1, counterexample: the claim fails as stated.  For the model response
`textFirstParts` — a text part followed by one Tool Invocation — the Turn
Driver publishes the text and returns (main.go lines 195-200) without
executing the invocation and without resubmitting any batch, although the
response contains one invocation. -/
theorem text_before_invocation_skips_execution :
    (callsOf textFirstParts).length = 1 ∧
    (processMessage (some tk0) (Except.ok tk0) (Except.ok textFirstParts)
      execOk (Except.ok [])).executed.length ≠ (callsOf textFirstParts).length ∧
    (processMessage (some tk0) (Except.ok tk0) (Except.ok textFirstParts)
      execOk (Except.ok [])).resubmissions = [] ∧
    (processMessage (some tk0) (Except.ok tk0) (Except.ok textFirstParts)
      execOk (Except.ok [])).published = ["Hola"] := by
  refine ⟨rfl, ?_, rfl, rfl⟩
  decide

/-- C1, amended: for every model response whose parts contain one or more
Tool Invocations and in which no text part precedes the first invocation
(equivalently, whose first part is an invocation), the Turn Driver executes
every invocation in the response via the Tool Dispatcher — for every
dispatcher behaviour `exec`, including ones that fail on some invocations —
and the batch resubmitted to the model contains exactly one Tool Result per
invocation, each tagged with its invocation's name. -/
theorem invocation_first_response_executes_all
    (tks : Tokens) (cs : Except String Tokens)
    (exec : String → List (String × GVal) → Except String String)
    (n : String) (a : List (String × GVal)) (rest : List RPart)
    (resp2 : Except Unit (List RPart)) :
    (processMessage (some tks) cs (Except.ok (RPart.functionCall n a :: rest))
        exec resp2).executed = callsOf (RPart.functionCall n a :: rest) ∧
    (processMessage (some tks) cs (Except.ok (RPart.functionCall n a :: rest))
        exec resp2).resubmissions =
      [toolBatchFrom exec (RPart.functionCall n a :: rest)] ∧
    (toolBatchFrom exec (RPart.functionCall n a :: rest)).length =
      (callsOf (RPart.functionCall n a :: rest)).length ∧
    (toolBatchFrom exec (RPart.functionCall n a :: rest)).map
        FunctionResponse.name =
      (callsOf (RPart.functionCall n a :: rest)).map Prod.fst := by
  have hloop : partsLoop exec (RPart.functionCall n a :: rest) false [] [] =
      .done (toolBatchFrom exec (RPart.functionCall n a :: rest))
            (callsOf (RPart.functionCall n a :: rest)) true := by
    simp [partsLoop, partsLoop_flagTrue, toolBatchFrom, callsOf]
  refine ⟨?_, ?_, toolBatchFrom_length exec _, toolBatchFrom_map_name exec _⟩
  · rw [processMessage_some]
    exact runTurn_executed_of_done _ exec resp2 _ _ _ hloop
  · rw [processMessage_some]
    unfold runTurn
    cases resp2 with
    | error e => simp [hloop]
    | ok p2 => cases hft : firstText p2 <;> simp [hloop, hft]

/-- C2, code-bug evidence: main.go line 70 starts `processMessage` in a
fresh goroutine per inbound message with no per-user lock, so two turns for
the same user are not serialized.  `unserializedSchedule` is a well-formed
interleaving of two `processMessage` executions for one user (it is a merge
of the two action traces and respects `sessionsMutex`), yet in it both
turns are inside the unguarded dialogue mutation of main.go lines 137-140
at the same time — refuting the claim that the session's dialogue handle is
never mutated by two turns at once. -/
theorem same_user_turns_can_overlap :
    isMerge unserializedSchedule processTrace processTrace = true ∧
    mutexOK unserializedSchedule = true ∧
    overlapMut unserializedSchedule = true :=
  ⟨rfl, rfl, rfl⟩

/-- C4: when the session carries no credentials and the credential source
fails, the turn publishes exactly the explanatory message built from the
credential error, invokes the Tool Dispatcher zero times, and resubmits no
Tool Result batch — so the published message carries no Tool Result
content (main.go lines 124-131). -/
theorem credential_failure_terminates_without_tools (e : String)
    (r1 : Except Unit (List RPart))
    (exec : String → List (String × GVal) → Except String String)
    (r2 : Except Unit (List RPart)) :
    processMessage none (Except.error e) r1 exec r2 =
      ⟨[authErrorMsg e], [], []⟩ := rfl

/-- C8, counterexample: the claim fails for outbound responses.  Go's
`SendResponse` returns nothing, so its caller receives the same value
whether the underlying `nc.Publish` failed or succeeded: the outbound
publish failure is not reported to the immediate caller (it is only
logged, nats_queue.go line 91). -/
theorem outbound_publish_failure_invisible_to_caller :
    (SendResponse (Except.error "nats: connection closed") "77" "hola").1 =
      (SendResponse (Except.ok ()) "77" "hola").1 :=
  rfl

/-- C8, amended: inbound publish failures are reported to the immediate
caller as an error (`PublishIncomingMessage` wraps and returns them,
nats_queue.go lines 61-63), while outbound response publish failures in
`SendResponse` are only logged inside the function and are not reported to
its caller. -/
theorem publish_failure_reporting (e u m : String) :
    PublishIncomingMessage (Except.error e) =
      Except.error ("error publishing incoming webhook to NATS: " ++ e) ∧
    PublishIncomingMessage (Except.ok ()) = Except.ok () ∧
    (SendResponse (Except.error e) u m).2 =
      ["Error publishing response to NATS subject " ++ respSubjectBase ++ u ++
        ": " ++ e] ∧
    (SendResponse (Except.error e) u m).1 = () :=
  ⟨rfl, rfl, rfl, rfl⟩

/-- C9: for every tool name outside the five statically known handlers, the
dispatcher returns a failure whose message names the unknown tool, for any
backend, credentials and arguments; the embedding is a total function, so
nothing escapes the dispatcher boundary (mcp_clients.go lines 170-172). -/
theorem unknown_tool_returns_descriptive_failure (b : Backend) (tks : Tokens)
    (toolName : String) (args : List (String × GVal))
    (h1 : toolName ≠ "list_calendar_events")
    (h2 : toolName ≠ "create_calendar_event")
    (h3 : toolName ≠ "send_email")
    (h4 : toolName ≠ "list_contacts")
    (h5 : toolName ≠ "create_contact") :
    ExecuteToolCall b tks toolName args =
      Except.error ("unknown tool: " ++ toolName) := by
  simp [ExecuteToolCall, h1, h2, h3, h4, h5]

/-- Witness for C9 at the concrete unknown tool name "delete_account". -/
theorem unknown_tool_returns_descriptive_failure_witness :
    "delete_account" ≠ "list_calendar_events" ∧
    ExecuteToolCall trivialBackend tk0 "delete_account" [] =
      Except.error "unknown tool: delete_account" :=
  ⟨by decide,
    unknown_tool_returns_descriptive_failure trivialBackend tk0
      "delete_account" [] (by decide) (by decide) (by decide) (by decide)
      (by decide)⟩

/-- C10: argument handling of the named handlers — a missing optional
argument takes its documented default (`calendar_id` "primary",
`max_results` 10, `page_size` 10), and a required argument that is absent
or of the wrong type is forwarded to the external operation as the Go zero
value rather than rejected: the `create_contact` handler always invokes the
backend with the request it built, whatever the arguments were. -/
theorem dispatcher_defaults_and_forwarding (tks : Tokens)
    (args : List (String × GVal)) (b : Backend)
    (h1 : argStr args "calendar_id" = none)
    (h2 : argInt args "max_results" = none)
    (h3 : argInt args "page_size" = none)
    (h4 : argStr args "display_name" = none) :
    (buildListEventsRequest tks args).calendarId = "primary" ∧
    (buildListEventsRequest tks args).maxResults = 10 ∧
    (buildListConnectionsRequest tks args).pageSize = 10 ∧
    (buildCreateContactRequest tks args).displayName = "" ∧
    ExecuteToolCall b tks "create_contact" args =
      mapOutcome "create_contact"
        (b.createContact (buildCreateContactRequest tks args)) := by
  refine ⟨?_, ?_, ?_, ?_, rfl⟩
  · simp [buildListEventsRequest, h1]
  · simp [buildListEventsRequest, h2]
  · simp [buildListConnectionsRequest, h3]
  · simp [buildCreateContactRequest, h4]

/-- Witness for C10: no optional arguments present, and the required
`display_name` bound to a number (wrong type), so every extraction yields
none; the dispatcher still calls the backend. -/
theorem dispatcher_defaults_and_forwarding_witness :
    argStr [("display_name", GVal.num 5)] "calendar_id" = none ∧
    ((buildListEventsRequest tk0 [("display_name", GVal.num 5)]).calendarId =
        "primary" ∧
      (buildListEventsRequest tk0 [("display_name", GVal.num 5)]).maxResults =
        10 ∧
      (buildListConnectionsRequest tk0
          [("display_name", GVal.num 5)]).pageSize = 10 ∧
      (buildCreateContactRequest tk0
          [("display_name", GVal.num 5)]).displayName = "" ∧
      ExecuteToolCall trivialBackend tk0 "create_contact"
          [("display_name", GVal.num 5)] =
        mapOutcome "create_contact"
          (trivialBackend.createContact
            (buildCreateContactRequest tk0 [("display_name", GVal.num 5)]))) :=
  ⟨by decide,
    dispatcher_defaults_and_forwarding tk0 [("display_name", GVal.num 5)]
      trivialBackend (by decide) (by decide) (by decide) (by decide)⟩

/-- C7: when a publish for user `u` reaches the bus before the timeout (it
is among the delivered arrivals, ahead of anything else on that subject),
`GetResponseFromNATS` returns exactly the published text, and its transient
subscription is torn down; when no arrival is on `u`'s response subject
within the timeout, it returns the "response timeout" error and the
deferred unsubscribe also tears the subscription down. -/
theorem awaitOutbound_roundtrip_and_teardown (u t : String)
    (later arrivals : List (String × OutMsg))
    (h : firstOnSubject (respSubjectBase ++ u) arrivals = none) :
    GetResponseFromNATS (SendResponsePublish u t :: later) u =
      ⟨Except.ok t, false⟩ ∧
    GetResponseFromNATS arrivals u =
      ⟨Except.error "response timeout", false⟩ := by
  constructor
  · simp [GetResponseFromNATS, SendResponsePublish, firstOnSubject, mkOutgoing]
  · simp [GetResponseFromNATS, h]

/-- Witness for C7: user 77 receives exactly the text published for them,
and times out when only another user's subject carries traffic. -/
theorem awaitOutbound_roundtrip_and_teardown_witness :
    firstOnSubject (respSubjectBase ++ "77")
        [("response.messages.99", mkOutgoing "99" "ajena")] = none ∧
    (GetResponseFromNATS (SendResponsePublish "77" "hola" ::
        [("response.messages.99", mkOutgoing "99" "ajena")]) "77" =
      ⟨Except.ok "hola", false⟩ ∧
    GetResponseFromNATS
        [("response.messages.99", mkOutgoing "99" "ajena")] "77" =
      ⟨Except.error "response timeout", false⟩) :=
  ⟨by decide,
    awaitOutbound_roundtrip_and_teardown "77" "hola"
      [("response.messages.99", mkOutgoing "99" "ajena")]
      [("response.messages.99", mkOutgoing "99" "ajena")] (by decide)⟩

lemma processMessage_none_ok (tks : Tokens) (r1 : Except Unit (List RPart))
    (exec : String → List (String × GVal) → Except String String)
    (r2 : Except Unit (List RPart)) :
    processMessage none (Except.ok tks) r1 exec r2 = runTurn r1 exec r2 := rfl

lemma processMessage_resub_le_one (tokens : Option Tokens)
    (cs : Except String Tokens) (r1 : Except Unit (List RPart))
    (exec : String → List (String × GVal) → Except String String)
    (r2 : Except Unit (List RPart)) :
    (processMessage tokens cs r1 exec r2).resubmissions.length ≤ 1 := by
  cases tokens with
  | some tks => simpa [processMessage_some] using runTurn_resub_le_one r1 exec r2
  | none =>
    cases cs with
    | error e => simp [processMessage]
    | ok tks => simpa [processMessage_none_ok] using runTurn_resub_le_one r1 exec r2

lemma runTurn_executed_from_first (q1 : List RPart)
    (exec : String → List (String × GVal) → Except String String)
    (r2 : Except Unit (List RPart)) :
    ∃ rest2, callsOf q1 = (runTurn (Except.ok q1) exec r2).executed ++ rest2 := by
  cases q1 with
  | nil =>
    refine ⟨[], ?_⟩
    have : runTurn (Except.ok ([] : List RPart)) exec r2 =
        ⟨[fallbackMsg], [], []⟩ := by
      unfold runTurn
      simp [partsLoop]
    rw [this]
    simp [callsOf]
  | cons p rest =>
    cases p with
    | text t =>
      refine ⟨callsOf (RPart.text t :: rest), ?_⟩
      have : runTurn (Except.ok (RPart.text t :: rest)) exec r2 =
          ⟨[t], [], []⟩ := by
        unfold runTurn
        simp [partsLoop]
      rw [this]
      simp
    | functionCall n a =>
      have hloop : partsLoop exec (RPart.functionCall n a :: rest) false [] [] =
          .done (toolBatchFrom exec (RPart.functionCall n a :: rest))
                (callsOf (RPart.functionCall n a :: rest)) true := by
        simp [partsLoop, partsLoop_flagTrue, toolBatchFrom, callsOf]
      refine ⟨[], ?_⟩
      rw [runTurn_executed_of_done _ exec r2 _ _ _ hloop]
      simp

lemma processMessage_executed_from_first (tokens : Option Tokens)
    (cs : Except String Tokens) (q1 : List RPart)
    (exec : String → List (String × GVal) → Except String String)
    (r2 : Except Unit (List RPart)) :
    ∃ rest2, callsOf q1 =
      (processMessage tokens cs (Except.ok q1) exec r2).executed ++ rest2 := by
  cases tokens with
  | some tks =>
    simpa [processMessage_some] using runTurn_executed_from_first q1 exec r2
  | none =>
    cases cs with
    | error e => exact ⟨callsOf q1, by simp [processMessage]⟩
    | ok tks =>
      simpa [processMessage_none_ok] using runTurn_executed_from_first q1 exec r2

/-- C3: every turn publishes exactly one outbound message, whatever the
credential state, the model outcomes and the dispatcher do; and when
neither the first model response nor the post-tool resubmission response
contains any text part, the published message is the fixed fallback — no
model response shape leaves the user without a response (main.go lines
149-223). -/
theorem turn_publishes_exactly_one_message (tokens : Option Tokens)
    (cs cs2 : Except String Tokens) (r1 r2 : Except Unit (List RPart))
    (exec exec2 : String → List (String × GVal) → Except String String)
    (tks : Tokens) (p1 p2 : List RPart)
    (h1 : firstText p1 = none) (h2 : firstText p2 = none) :
    (processMessage tokens cs r1 exec r2).published.length = 1 ∧
    (processMessage (some tks) cs2 (Except.ok p1) exec2
        (Except.ok p2)).published = [fallbackMsg] := by
  refine ⟨processMessage_pub_len tokens cs r1 exec r2, ?_⟩
  obtain ⟨acc, ex, ht, hloop⟩ := partsLoop_noText exec2 p1 false [] [] h1
  rw [processMessage_some]
  unfold runTurn
  cases ht with
  | false => simp [hloop]
  | true => simp [hloop, h2]

/-- Witness for C3 at a concrete turn whose two model responses carry no
text part at all: the single published message is the fallback. -/
theorem turn_publishes_exactly_one_message_witness :
    firstText [RPart.functionCall "send_email" []] = none ∧
    ((processMessage (some tk0) (Except.ok tk0)
        (Except.ok [RPart.functionCall "send_email" []]) execOk
        (Except.ok [])).published.length = 1 ∧
      (processMessage (some tk0) (Except.ok tk0)
        (Except.ok [RPart.functionCall "send_email" []]) execOk
        (Except.ok [])).published = [fallbackMsg]) :=
  ⟨by decide,
    turn_publishes_exactly_one_message (some tk0) (Except.ok tk0)
      (Except.ok tk0) (Except.ok [RPart.functionCall "send_email" []])
      (Except.ok []) execOk execOk tk0 [RPart.functionCall "send_email" []]
      [] (by decide) (by decide)⟩

/-- C5: a turn performs at most one round of tool-calling.  A first model
response consisting only of Tool Invocations triggers exactly one
resubmission; every turn resubmits at most one batch; and the invocations a
turn executes are always an initial segment of the first response's
invocations — Tool Invocations contained in the post-resubmission response
are never executed (main.go lines 204-222 only scan that response for
text). -/
theorem single_round_of_tool_calling (tks : Tokens)
    (cs cs2 : Except String Tokens) (p1 q1 : List RPart)
    (resp2 r1 r2 : Except Unit (List RPart)) (tokens : Option Tokens)
    (exec e2 : String → List (String × GVal) → Except String String)
    (hall : p1.all isCall = true) (hne : p1 ≠ []) :
    (processMessage (some tks) cs (Except.ok p1) exec
        resp2).resubmissions.length = 1 ∧
    (processMessage tokens cs2 r1 e2 r2).resubmissions.length ≤ 1 ∧
    (∃ rest2, callsOf q1 =
      (processMessage tokens cs2 (Except.ok q1) e2 r2).executed ++ rest2) := by
  refine ⟨?_, processMessage_resub_le_one tokens cs2 r1 e2 r2,
    processMessage_executed_from_first tokens cs2 q1 e2 r2⟩
  obtain ⟨n, a, rest, rfl⟩ : ∃ n a rest, p1 = RPart.functionCall n a :: rest := by
    cases p1 with
    | nil => exact absurd rfl hne
    | cons p rest =>
      cases p with
      | text t => simp [isCall] at hall
      | functionCall n a => exact ⟨n, a, rest, rfl⟩
  have hloop : partsLoop exec (RPart.functionCall n a :: rest) false [] [] =
      .done (toolBatchFrom exec (RPart.functionCall n a :: rest))
            (callsOf (RPart.functionCall n a :: rest)) true := by
    simp [partsLoop, partsLoop_flagTrue, toolBatchFrom, callsOf]
  rw [processMessage_some]
  unfold runTurn
  cases resp2 with
  | error e => simp [hloop]
  | ok pp => cases hft : firstText pp <;> simp [hloop, hft]

/-- Witness for C5 at a first response made of two invocations, with a
dispatcher that fails on the first one. -/
theorem single_round_of_tool_calling_witness :
    ([RPart.functionCall "list_contacts" [],
      RPart.functionCall "send_email" []].all isCall = true ∧
      [RPart.functionCall "list_contacts" [],
        RPart.functionCall "send_email" []] ≠ []) ∧
    ((processMessage (some tk0) (Except.ok tk0)
        (Except.ok [RPart.functionCall "list_contacts" [],
          RPart.functionCall "send_email" []]) execOk
        (Except.ok [RPart.text "listo"])).resubmissions.length = 1 ∧
      (processMessage (some tk0) (Except.ok tk0)
        (Except.ok [RPart.text "hola"]) execOk
        (Except.ok [RPart.text "listo"])).resubmissions.length ≤ 1 ∧
      (∃ rest2, callsOf [RPart.text "hola"] =
        (processMessage (some tk0) (Except.ok tk0)
          (Except.ok [RPart.text "hola"]) execOk
          (Except.ok [RPart.text "listo"])).executed ++ rest2)) :=
  ⟨⟨by decide, by decide⟩,
    single_round_of_tool_calling tk0 (Except.ok tk0) (Except.ok tk0)
      [RPart.functionCall "list_contacts" [], RPart.functionCall "send_email" []]
      [RPart.text "hola"] (Except.ok [RPart.text "listo"])
      (Except.ok [RPart.text "hola"]) (Except.ok [RPart.text "listo"])
      (some tk0) execOk execOk (by decide) (by decide)⟩

/-- C6: `GetOrCreateUserSession` is total (it always returns a session: N
serialized calls yield N results), N concurrent calls for one user — which
the mutex covering the whole body reduces to N sequential calls — all
return the same session instance, and the store afterwards holds exactly
one entry for that user; moreover the lookup-or-insert is one atomic step
under the mutex: every mutex-respecting interleaving of two
`GetOrCreateUserSession` bodies is one of the two fully sequential
orders. -/
theorem getOrCreate_agreement_and_atomicity (u : String) (st : Store)
    (n : Nat) (h : countUser st u ≤ 1) :
    (∃ sid, (runCalls u (n + 1) st).1 = List.replicate (n + 1) sid) ∧
    (runCalls u (n + 1) st).1.length = n + 1 ∧
    countUser (runCalls u (n + 1) st).2 u = 1 ∧
    ((allMerges getOrCreateTrace getOrCreateTrace).all fun s =>
      !(mutexOK s) || (decide (s = seqAB getOrCreateTrace) ||
        decide (s = seqBA getOrCreateTrace))) = true := by
  cases hl : lookupSession st.entries u with
  | some sid =>
    have hr : runCalls u (n + 1) st = (List.replicate (n + 1) sid, st) :=
      runCalls_stable u sid (n + 1) st hl
    have hcount : countUser st u = 1 := by
      have hpos := lookupSession_some_count st.entries u sid hl
      unfold countUser at h ⊢
      omega
    exact ⟨⟨sid, by rw [hr]⟩, by rw [hr]; simp, by rw [hr]; exact hcount,
      by decide⟩
  | none =>
    have hg : GetOrCreateUserSession st u =
        (st.nextId, false, ⟨st.entries ++ [(u, st.nextId)], st.nextId + 1⟩) := by
      unfold GetOrCreateUserSession
      rw [hl]
    have hl1 : lookupSession
        (Store.mk (st.entries ++ [(u, st.nextId)]) (st.nextId + 1)).entries u =
        some st.nextId :=
      lookupSession_append st.entries u st.nextId hl
    have hr : runCalls u (n + 1) st =
        (st.nextId :: List.replicate n st.nextId,
          ⟨st.entries ++ [(u, st.nextId)], st.nextId + 1⟩) := by
      have hstable := runCalls_stable u st.nextId n
        ⟨st.entries ++ [(u, st.nextId)], st.nextId + 1⟩ hl1
      simp [runCalls, hg, hstable]
    have hcount : countUser
        (Store.mk (st.entries ++ [(u, st.nextId)]) (st.nextId + 1)) u = 1 := by
      have h0 := lookupSession_none_count st.entries u hl
      unfold countUser
      simp [List.countP_append, List.countP_cons, h0]
    exact ⟨⟨st.nextId, by rw [hr]; simp [List.replicate]⟩,
      by rw [hr]; simp, by rw [hr]; exact hcount, by decide⟩

/-- Witness for C6: three calls for a fresh user on the empty store all
return session 0 and leave one entry. -/
theorem getOrCreate_agreement_and_atomicity_witness :
    countUser ⟨[], 0⟩ "5493815470353" ≤ 1 ∧
    ((∃ sid, (runCalls "5493815470353" 3 ⟨[], 0⟩).1 = List.replicate 3 sid) ∧
      (runCalls "5493815470353" 3 ⟨[], 0⟩).1.length = 3 ∧
      countUser (runCalls "5493815470353" 3 ⟨[], 0⟩).2 "5493815470353" = 1 ∧
      ((allMerges getOrCreateTrace getOrCreateTrace).all fun s =>
        !(mutexOK s) || (decide (s = seqAB getOrCreateTrace) ||
          decide (s = seqBA getOrCreateTrace))) = true) :=
  ⟨by decide,
    getOrCreate_agreement_and_atomicity "5493815470353" ⟨[], 0⟩ 2 (by decide)⟩
